import Mathlib

/-!
Verification of the go-rendezvous library (packages `util`, `rdv`, `rdvext`,
and the superseded `obsolete` package), via a shallow embedding.

Concurrency is embedded by making every scheduling decision explicit:
each `select` race carries an oracle value saying which event fired first,
and every value that a goroutine would eventually write is threaded through
as data.  Channels of capacity 1 are an `Option` buffer plus a closed flag,
with receive/send modelled exactly as Go's channel semantics prescribe
(receive on a closed empty channel yields the zero record immediately;
receive on an open empty channel blocks, modelled as `none`).
-/

namespace Rendezvous

/-- Go `error` values that occur in this library: a task's own domain error
(identified by its message), `util.ErrorOf` wrapping a non-error panic
payload's rendered description, and the two context errors
`context.Canceled` and `context.DeadlineExceeded`.  A Go `error` variable
is `Option Err`, with `none` for `nil`. -/
inductive Err where
  | taskError : String → Err
  | errorOf : String → Err
  | cancelled : Err
  | deadlineExceeded : Err
  deriving DecidableEq, Repr

/-- The reason a context (cancellation token) is done. -/
inductive Reason where
  | cancelled : Reason
  | timedOut : Reason
  deriving DecidableEq, Repr

/-- `ctx.Err()` for a done context: `context.Canceled` or
`context.DeadlineExceeded` according to the reason. -/
def ctxErr : Reason → Err
  | Reason.cancelled => Err.cancelled
  | Reason.timedOut => Err.deadlineExceeded

/-- A Go panic payload (the argument of `recover()`): either a value that
already is an `error`, or some other value, kept as its rendered
description (`fmt.Sprintf of percent-v`). -/
inductive PanicPayload where
  | errPayload : Err → PanicPayload
  | otherPayload : String → PanicPayload
  deriving DecidableEq, Repr

/-- `util.ToError`: transforms an arbitrary value x into an error.
If x is an error, it does nothing.  Otherwise, it wraps x in an `ErrorOf`. -/
def ToError : PanicPayload → Err
  | PanicPayload.errPayload e => e
  | PanicPayload.otherPayload s => Err.errorOf s

/-- The behaviour of one call of a Go function returning `(T, error)`:
it either returns a (value, error) pair normally, or panics with a payload. -/
inductive Outcome (T : Type) where
  | ret : T → Option Err → Outcome T
  | panics : PanicPayload → Outcome T
  deriving DecidableEq, Repr

/-- `util.SafeFunc0E`: wraps `f` into a function that never panics.
On normal return the (value, error) pair passes through unchanged; on a
panic the named result `res` still holds the zero value of `T` and the
deferred `recover` converts the payload with `ToError`. -/
def SafeFunc0E {T : Type} (zero : T) : Outcome T → T × Option Err
  | Outcome.ret v e => (v, e)
  | Outcome.panics p => (zero, some (ToError p))

/-- `rdv.rdvData`: the record carried by Rdv channels. -/
structure rdvData (T : Type) where
  value : T
  err : Option Err
  chanOpen : Bool
  deriving DecidableEq, Repr

/-- The state of one `chan rdvData[T]` of capacity 1: at most one buffered
record, plus whether `close` has been called. -/
structure RdvChan (T : Type) where
  buffer : Option (rdvData T)
  closed : Bool
  deriving DecidableEq, Repr

/-- The channel as `rdv.Go`/`rdv.GoEg` create it: `make(chan rdvData[T], 1)`,
empty and open. -/
def freshChan {T : Type} : RdvChan T := { buffer := none, closed := false }

/-- Go receive `<-ch` on a capacity-1 channel: takes the buffered record if
present; on a closed empty channel immediately yields the zero `rdvData`
(whose `chanOpen` is `false`); on an open empty channel blocks (`none`). -/
def chanRecv {T : Type} (zero : T) (c : RdvChan T) :
    Option (rdvData T × RdvChan T) :=
  match c.buffer with
  | some d => some (d, { buffer := none, closed := c.closed })
  | none =>
    if c.closed then
      some ({ value := zero, err := none, chanOpen := false }, c)
    else
      none

/-- Go send `ch <- d` on a capacity-1 channel: succeeds exactly when the
buffer is empty and the channel is open; otherwise the send does not
complete (`none`: a full buffer blocks, a closed channel faults). -/
def chanSend {T : Type} (c : RdvChan T) (d : rdvData T) : Option (RdvChan T) :=
  if c.closed then none
  else
    match c.buffer with
    | none => some { buffer := some d, closed := false }
    | some _ => none

/-- The message of the panic raised by `Receive`/`ReceiveWatch` on a record
whose `chanOpen` field is false (i.e. read from an exhausted, closed slot). -/
def closedChanMsg : String := "attempt to get data from closed rendezvous channel"

/-- `rdv.Rdv.Receive`: receives one record from the channel and returns its
(value, error) pair, panicking (`Except.error`) when the record shows the
channel was closed.  `none` means the receive blocks. -/
def Receive {T : Type} (zero : T) (c : RdvChan T) :
    Option (Except String ((T × Option Err) × RdvChan T)) :=
  match chanRecv zero c with
  | none => none
  | some (d, c') =>
    some (if d.chanOpen then Except.ok ((d.value, d.err), c') else Except.error closedChanMsg)

/-- Which event the `select` in `ReceiveWatch` observes first: the channel
receive, or the context's `Done()` with the token's reason. -/
inductive RaceEvent where
  | slotWins : RaceEvent
  | tokenWins : Reason → RaceEvent
  deriving DecidableEq, Repr

/-- `rdv.Rdv.ReceiveWatch`: races the channel receive against `ctx.Done()`.
If `ctx.Done()` fires first, `data` keeps its zero value and `data.err`
is set to `ctx.Err()`.  If the channel fires first, it proceeds exactly as
`Receive` (including the closed-channel panic). -/
def ReceiveWatch {T : Type} (zero : T) (c : RdvChan T) (ev : RaceEvent) :
    Option (Except String ((T × Option Err) × RdvChan T)) :=
  match ev with
  | RaceEvent.tokenWins r => some (Except.ok ((zero, some (ctxErr r)), c))
  | RaceEvent.slotWins =>
    match chanRecv zero c with
    | none => none
    | some (d, c') =>
      some (if d.chanOpen then Except.ok ((d.value, d.err), c') else Except.error closedChanMsg)

/-- The body of the goroutine launched by `rdv.Go`: wrap `f` with
`SafeFunc0E`, run it, send the single record with `chanOpen = true`, and
(`defer`) close the channel.  The result is the channel's final state,
`none` if the send could not complete. -/
def goBody {T : Type} (zero : T) (out : Outcome T) : Option (RdvChan T) :=
  let res := SafeFunc0E zero out
  (chanSend freshChan { value := res.1, err := res.2, chanOpen := true }).map
    (fun c => { c with closed := true })

/-- The body of the goroutine launched by `rdv.GoEg`: same as `goBody`, and
additionally reports the wrapped function's error to the errgroup. -/
def goEgBody {T : Type} (zero : T) (out : Outcome T) :
    Option (RdvChan T × Option Err) :=
  (goBody zero out).map (fun c => (c, (SafeFunc0E zero out).2))

/-- A channel holding a delivered record, as left by a finished `goBody`:
the record is buffered and the deferred `close` has run. -/
def mkDelivered {T : Type} (v : T) (e : Option Err) : RdvChan T :=
  { buffer := some { value := v, err := e, chanOpen := true }, closed := true }

/-!
`rdvext` combinators.  In `RunSlice`/`Run2`, each task is launched with
`rdv.Go` (whose goroutine writes the record `SafeFunc0E zero out` with
`chanOpen = true`) and then drained with `ReceiveWatch(ctx)` in argument
order.  The race oracle for task `i` is a `Bool`: `true` when the channel
receive wins the select (so the first receive on that handle sees the
goroutine's open record), `false` when the shared context's `Done()` wins.
The context's reason `tok` is shared by all member receives. -/

/-- What `rvs[i].ReceiveWatch(ctx)` yields for a task launched by
`rdv.Go`: the goroutine's record `SafeFunc0E zero out` when the channel
receive wins (a first receive, so `chanOpen` is true and no panic occurs),
or `(zero, ctx.Err())` when the context's done event wins. -/
def receiveWatchGo {T : Type} (zero : T) (tok : Reason)
    (out : Outcome T) (slotWins : Bool) : T × Option Err :=
  if slotWins then SafeFunc0E zero out else (zero, some (ctxErr tok))

/-- The summary-error loop of `RunSlice`/`Run2`: scan the errors in
argument order, keep the first non-nil one, `break`; `nil` if none. -/
def firstErr : List (Option Err) → Option Err
  | [] => none
  | some e :: _ => some e
  | none :: rest => firstErr rest

/-- `rdvext.RunSlice`: launches every `f` via `rdv.Go (rdv.CtxApply ctx f)`,
drains each handle with `ReceiveWatch(ctx)` in argument order into
`results`, and computes the summary error with the first-error loop.
Each task is given by its behavioural outcome and its race oracle. -/
def RunSlice {T : Type} (zero : T) (tok : Reason)
    (tasks : List (Outcome T × Bool)) :
    List (T × Option Err) × Option Err :=
  let results := tasks.map (fun t => receiveWatchGo zero tok t.1 t.2)
  (results, firstErr (results.map Prod.snd))

/-- `rdvext.Run2`: the two-task variant of `RunSlice`, returning a
`util.Tuple2` of `ResultWithError` (here a product of pairs) and the
summary error computed by the same loop over `[X1.Error, X2.Error]`. -/
def Run2 {T1 T2 : Type} (zero1 : T1) (zero2 : T2) (tok : Reason)
    (t1 : Outcome T1 × Bool) (t2 : Outcome T2 × Bool) :
    ((T1 × Option Err) × (T2 × Option Err)) × Option Err :=
  let r1 := receiveWatchGo zero1 tok t1.1 t1.2
  let r2 := receiveWatchGo zero2 tok t2.1 t2.2
  ((r1, r2), firstErr [r1.2, r2.2])

/-- `errgroup.Group.Wait`: returns the first non-nil error among the
member results in real-time completion order (`memberErrs` lists the
member errors in the order the members finished), `nil` when every member
succeeded — in particular `nil` for an empty group. -/
def egWait : List (Option Err) → Option Err
  | [] => none
  | some e :: _ => some e
  | none :: rest => egWait rest

/-- The drain loop of `RunSliceEg`: `results[i], _ = rvs[i].Receive()` in
call order, discarding each record's error component.  `none` when some
receive blocks; `Except.error` when some receive panics. -/
def drainAll {T : Type} (zero : T) : List (RdvChan T) → Option (Except String (List T))
  | [] => some (Except.ok [])
  | c :: cs =>
    match Receive zero c with
    | none => none
    | some (Except.error m) => some (Except.error m)
    | some (Except.ok (r, _)) =>
      match drainAll zero cs with
      | none => none
      | some (Except.error m) => some (Except.error m)
      | some (Except.ok vs) => some (Except.ok (r.1 :: vs))

/-- `rdvext.RunSliceEg`: launches every task in an errgroup, then
`err := eg.Wait()`.  On a non-nil error it returns `(nil, err)` at once
(`none` models the nil slice); otherwise it drains every member handle
with a plain `Receive` in call order and returns the values with the
nil `err`.  `slots` is each member channel's state at drain time. -/
def RunSliceEg {T : Type} (zero : T) (memberErrs : List (Option Err))
    (slots : List (RdvChan T)) :
    Option (Except String (Option (List T) × Option Err)) :=
  match egWait memberErrs with
  | some e => some (Except.ok (none, some e))
  | none =>
    (drainAll zero slots).map (fun ex => ex.map (fun vs => (some vs, none)))

/-- `rdvext.Run2Eg`: the two-task errgroup variant.  On a non-nil
`eg.Wait()` error it returns the zero-valued `util.Tuple2` with that
error.  Otherwise it drains `rv1` and `rv2` with `ReceiveWatch(ctx)`
(each with its own race oracle), discarding the error components, and
returns the tuple of values with the nil error. -/
def Run2Eg {T1 T2 : Type} (zero1 : T1) (zero2 : T2)
    (memberErrs : List (Option Err))
    (c1 : RdvChan T1) (c2 : RdvChan T2) (ev1 ev2 : RaceEvent) :
    Option (Except String ((T1 × T2) × Option Err)) :=
  match egWait memberErrs with
  | some e => some (Except.ok ((zero1, zero2), some e))
  | none =>
    match ReceiveWatch zero1 c1 ev1 with
    | none => none
    | some (Except.error m) => some (Except.error m)
    | some (Except.ok (r1, _)) =>
      match ReceiveWatch zero2 c2 ev2 with
      | none => none
      | some (Except.error m) => some (Except.error m)
      | some (Except.ok (r2, _)) => some (Except.ok ((r1.1, r2.1), none))

/-- Modelled from the spec (section 4.6), for refinement comparison with
`Run2Eg`: after a successful join, `drain every member's Rendezvous with
a plain (non-racing) receive` — i.e. the same combinator but with
`Receive` in place of `ReceiveWatch` for both members. -/
def Run2EgSpecDrain {T1 T2 : Type} (zero1 : T1) (zero2 : T2)
    (memberErrs : List (Option Err))
    (c1 : RdvChan T1) (c2 : RdvChan T2) :
    Option (Except String ((T1 × T2) × Option Err)) :=
  match egWait memberErrs with
  | some e => some (Except.ok ((zero1, zero2), some e))
  | none =>
    match Receive zero1 c1 with
    | none => none
    | some (Except.error m) => some (Except.error m)
    | some (Except.ok (r1, _)) =>
      match Receive zero2 c2 with
      | none => none
      | some (Except.error m) => some (Except.error m)
      | some (Except.ok (r2, _)) => some (Except.ok ((r1.1, r2.1), none))

/-!
The superseded `obsolete` package: `preWaiter.ErrWait` and
`promiseImpl.Await`.  `ErrWait` has a VALUE receiver, so the assignment
`w.Err = err` inside the `sync.Once` body mutates a copy of the struct:
only the shared `*sync.Once` (`onceFired`) persists across calls, while
the persistent `err` field is never updated.  The embedding threads the
persistent struct state explicitly and reproduces exactly that. -/

/-- The persistent fields of `obsolete.preWaiter` relevant to `ErrWait`:
the `Err` field and the state of the shared `*sync.Once` gate. -/
structure preWaiter where
  err : Option Err
  onceFired : Bool
  deriving DecidableEq, Repr

/-- Which case of `ErrWait`'s `select` fires: a value (or close) on
`WaitCh`, or the context's `Done()`. -/
inductive SelectPick where
  | waitCh : Option Err → SelectPick
  | ctxDone : Reason → SelectPick
  deriving DecidableEq, Repr

/-- `obsolete.preWaiter.ErrWait` with Go's value-receiver semantics: the
method works on a copy `w` of the persistent struct.  On the first call
the `Once` body runs the select and assigns the copy's `Err`, which the
same call then returns; the persistent struct records only that the
`Once` fired.  On later calls the `Once` body is skipped and the copy's
`Err` — the never-updated persistent field — is returned. -/
def ErrWait (w : preWaiter) (pick : SelectPick) : Option Err × preWaiter :=
  if w.onceFired then
    (w.err, w)
  else
    let e :=
      match pick with
      | SelectPick.waitCh errW => errW
      | SelectPick.ctxDone r => some (ctxErr r)
    (e, { w with onceFired := true })

/-- The fields of `obsolete.promiseImpl`: the result record filled by the
launched goroutine, and the waiter (through `SingleWaiter.Wait`, which
delegates to `preWaiter.ErrWait`). -/
structure promiseImpl (T : Type) where
  resWE : T × Option Err
  waiter : preWaiter
  deriving DecidableEq, Repr

/-- `obsolete.promiseImpl.Await`: waits via the waiter, then returns
`ResWE.Value` and the waiter's error when non-nil, else `ResWE.Error`. -/
def Await {T : Type} (P : promiseImpl T) (pick : SelectPick) :
    (T × Option Err) × promiseImpl T :=
  let w := ErrWait P.waiter pick
  let err := match w.1 with
    | some e => some e
    | none => P.resWE.2
  ((P.resWE.1, err), { P with waiter := w.2 })

/-- The claim's characterisation of a summary error for a list of
per-entry errors: `none` when every entry's error is nil, and otherwise
the error of the lowest-index entry carrying a non-nil error. -/
def lowestIndexErr (es : List (Option Err)) : Option Err → Prop
  | none => ∀ e ∈ es, e = none
  | some e => ∃ j, j < es.length ∧ es.getD j none = some e ∧
      ∀ i, i < j → es.getD i none = none

/-! Helper lemmas. -/

/-- `List.getD` commutes with `List.map` when the default is mapped too. -/
theorem getD_map {α β : Type} (f : α → β) (l : List α) (i : ℕ) (d : α) :
    (l.map f).getD i (f d) = f (l.getD i d) := by
  induction l generalizing i with
  | nil => simp [List.getD]
  | cons hd tl ih =>
    cases i with
    | zero => simp
    | succ n => simp only [List.map_cons, List.getD_cons_succ]; exact ih n

/-- The first-error scan computes exactly the lowest-index non-nil error. -/
theorem firstErr_lowest (es : List (Option Err)) :
    lowestIndexErr es (firstErr es) := by
  induction es with
  | nil =>
    show lowestIndexErr [] none
    intro e he
    simp at he
  | cons hd rest ih =>
    cases hd with
    | some e =>
      show lowestIndexErr (some e :: rest) (some e)
      exact ⟨0, by simp, rfl, fun i hi => absurd hi (Nat.not_lt_zero i)⟩
    | none =>
      show lowestIndexErr (none :: rest) (firstErr rest)
      cases h : firstErr rest with
      | none =>
        have hrest := ih
        rw [h] at hrest
        intro x hx
        rcases List.mem_cons.mp hx with h1 | h2
        · exact h1
        · exact hrest x h2
      | some e =>
        have hrest := ih
        rw [h] at hrest
        obtain ⟨j, hj, hget, hlt⟩ := hrest
        refine ⟨j + 1, by simp only [List.length_cons]; exact Nat.succ_lt_succ hj,
          by simpa using hget, ?_⟩
        intro i hi
        cases i with
        | zero => simp
        | succ n => simpa using hlt n (Nat.lt_of_succ_lt_succ hi)

/-- A plain `Receive` on a delivered channel returns the buffered record
and leaves the channel closed and empty. -/
theorem receive_mkDelivered {T : Type} (zero v : T) (e : Option Err) :
    Receive zero (mkDelivered v e) =
      some (Except.ok ((v, e), { buffer := none, closed := true })) := rfl

/-- Draining a list of delivered channels with plain `Receive` yields the
buffered values in order. -/
theorem drainAll_delivered {T : Type} (zero : T)
    (records : List (T × Option Err)) :
    drainAll zero (records.map (fun r => mkDelivered r.1 r.2)) =
      some (Except.ok (records.map Prod.fst)) := by
  induction records with
  | nil => rfl
  | cons r rs ih =>
    simp only [List.map_cons, drainAll, receive_mkDelivered zero r.1 r.2, ih]

/-! Claim theorems. -/

/-- C1: `SafeFunc0E f` never raises (it is a total function here): when
`f` returns normally it passes the (value, error) pair through unchanged,
and when `f` panics it returns the zero value of `T` with `ToError` of the
payload — the payload itself when it already is an error, otherwise an
`ErrorOf` wrapping the payload's rendered description. -/
theorem safeFunc0E_contract {T : Type} (zero v : T) (e : Option Err)
    (p : PanicPayload) :
    SafeFunc0E zero (Outcome.ret v e) = (v, e) ∧
    SafeFunc0E zero (Outcome.panics p) = (zero, some (ToError p)) ∧
    (∀ e2 : Err, ToError (PanicPayload.errPayload e2) = e2) ∧
    (∀ s : String, ToError (PanicPayload.otherPayload s) = Err.errorOf s) :=
  ⟨rfl, rfl, fun _ => rfl, fun _ => rfl⟩

/-- C2: for `RunSlice` (any task list, any race schedule) and `Run2`, the
returned summary error is exactly characterised by `lowestIndexErr`: nil
when no entry carries an error, and otherwise equal to the error of the
lowest-index entry with a non-nil error — ordering is by argument
position, which is the only order the embedding even mentions. -/
theorem summary_error_first_by_position {T T1 T2 : Type} (zero : T)
    (zero1 : T1) (zero2 : T2) (tok : Reason)
    (tasks : List (Outcome T × Bool))
    (t1 : Outcome T1 × Bool) (t2 : Outcome T2 × Bool) :
    lowestIndexErr ((RunSlice zero tok tasks).1.map Prod.snd)
        (RunSlice zero tok tasks).2 ∧
    lowestIndexErr
        [((Run2 zero1 zero2 tok t1 t2).1.1).2, ((Run2 zero1 zero2 tok t1 t2).1.2).2]
        (Run2 zero1 zero2 tok t1 t2).2 :=
  ⟨firstErr_lowest _, firstErr_lowest _⟩

/-- C3: when `eg.Wait()` observes a non-nil error, `RunSliceEg` returns a
nil results slice (`none`) with that error, and `Run2Eg` returns the
zero-valued tuple with that error — in both cases the values of members
that did complete (the `slots`/`c1`/`c2` states) are discarded. -/
theorem failFast_error_path {T T1 T2 : Type} (zero : T) (zero1 : T1)
    (zero2 : T2) (memberErrs : List (Option Err)) (e : Err)
    (slots : List (RdvChan T)) (c1 : RdvChan T1) (c2 : RdvChan T2)
    (ev1 ev2 : RaceEvent) (h : egWait memberErrs = some e) :
    RunSliceEg zero memberErrs slots = some (Except.ok (none, some e)) ∧
    Run2Eg zero1 zero2 memberErrs c1 c2 ev1 ev2 =
      some (Except.ok ((zero1, zero2), some e)) := by
  constructor
  · simp [RunSliceEg, h]
  · simp [Run2Eg, h]

/-- Witness for C3 at a concrete input: one member failed while the member
channels hold completed values 7 and 8, which are discarded. -/
theorem failFast_error_path_witness :
    RunSliceEg (0 : Nat) [some (Err.taskError "boom")] [mkDelivered 7 none] =
      some (Except.ok (none, some (Err.taskError "boom"))) ∧
    Run2Eg (0 : Nat) (0 : Nat) [some (Err.taskError "boom")]
        (mkDelivered 7 none) (mkDelivered 8 none)
        RaceEvent.slotWins RaceEvent.slotWins =
      some (Except.ok ((0, 0), some (Err.taskError "boom"))) :=
  failFast_error_path 0 0 0 [some (Err.taskError "boom")] (Err.taskError "boom")
    [mkDelivered 7 none] (mkDelivered 7 none) (mkDelivered 8 none)
    RaceEvent.slotWins RaceEvent.slotWins rfl

/-- C4 counterexample: the claim says both fail-fast combinators drain
with a plain non-racing `receive()`, but `Run2Eg` drains with
`ReceiveWatch(ctx)`: at a concrete input where member 1's slot holds
value 7 but the token's done event wins that race, `Run2Eg` returns the
zero value 0 for member 1, while the spec-worded plain-receive drain
(`Run2EgSpecDrain`) returns 7 — the two differ. -/
theorem run2Eg_drain_not_plain_receive :
    Run2Eg (0 : Nat) (0 : Nat) [] (mkDelivered 7 none) (mkDelivered 8 none)
        (RaceEvent.tokenWins Reason.cancelled) RaceEvent.slotWins =
      some (Except.ok ((0, 8), none)) ∧
    Run2EgSpecDrain (0 : Nat) (0 : Nat) [] (mkDelivered 7 none)
        (mkDelivered 8 none) =
      some (Except.ok ((7, 8), none)) ∧
    Run2Eg (0 : Nat) (0 : Nat) [] (mkDelivered 7 none) (mkDelivered 8 none)
        (RaceEvent.tokenWins Reason.cancelled) RaceEvent.slotWins ≠
      Run2EgSpecDrain (0 : Nat) (0 : Nat) [] (mkDelivered 7 none)
        (mkDelivered 8 none) := by
  refine ⟨rfl, rfl, ?_⟩
  intro h
  simp [Run2Eg, Run2EgSpecDrain, egWait, ReceiveWatch, Receive, chanRecv,
    mkDelivered] at h

/-- C4 (amended): when `eg.Wait()` succeeds, `RunSliceEg` drains every
member with a plain non-racing `Receive` and returns the drained values
in call order with a nil error; `Run2Eg` drains with the
cancellation-racing `ReceiveWatch`, which coincides with plain `Receive`
whenever the slot event wins the race, and then likewise returns the
values in call order with a nil error. -/
theorem failFast_success_drain {T T1 T2 : Type} (zero : T) (zero1 : T1)
    (zero2 : T2) (memberErrs : List (Option Err))
    (records : List (T × Option Err)) (v1 : T1) (e1 : Option Err)
    (v2 : T2) (e2 : Option Err) (h : egWait memberErrs = none) :
    RunSliceEg zero memberErrs (records.map (fun r => mkDelivered r.1 r.2)) =
      some (Except.ok (some (records.map Prod.fst), none)) ∧
    Run2Eg zero1 zero2 memberErrs (mkDelivered v1 e1) (mkDelivered v2 e2)
        RaceEvent.slotWins RaceEvent.slotWins =
      some (Except.ok ((v1, v2), none)) ∧
    (∀ c : RdvChan T1, ReceiveWatch zero1 c RaceEvent.slotWins = Receive zero1 c) := by
  refine ⟨?_, ?_, fun c => rfl⟩
  · simp [RunSliceEg, h, drainAll_delivered, Except.map]
  · simp [Run2Eg, h, ReceiveWatch, chanRecv, mkDelivered]

/-- Witness for C4's amended claim at a concrete input: an all-successful
group with member values 3 and 4 (slice) and 7 and 8 (tuple). -/
theorem failFast_success_drain_witness :
    RunSliceEg (0 : Nat) [none]
        ([((3 : Nat), none), (4, none)].map (fun r => mkDelivered r.1 r.2)) =
      some (Except.ok (some [3, 4], none)) ∧
    Run2Eg (0 : Nat) (0 : Nat) [none] (mkDelivered 7 none) (mkDelivered 8 none)
        RaceEvent.slotWins RaceEvent.slotWins =
      some (Except.ok ((7, 8), none)) ∧
    (∀ c : RdvChan Nat, ReceiveWatch 0 c RaceEvent.slotWins = Receive 0 c) :=
  failFast_success_drain 0 0 0 [none] [(3, none), (4, none)] 7 none 8 none rfl

/-- The drain loop of `RunSlice`, looked up at index `i`: a task whose
race oracle says the token won yields the token's error. -/
theorem runSlice_getD_token {T : Type} (zero : T) (tok : Reason) :
    ∀ (tasks : List (Outcome T × Bool)) (i : ℕ),
      (tasks.getD i (Outcome.ret zero none, true)).2 = false →
      (tasks.map (fun t => receiveWatchGo zero tok t.1 t.2)).getD i (zero, none) =
        (zero, some (ctxErr tok))
  | [], i, hi => by simp at hi
  | t :: ts, 0, hi => by
    simp only [List.getD_cons_zero] at hi
    simp only [List.map_cons, List.getD_cons_zero]
    simp [receiveWatchGo, hi]
  | t :: ts, i + 1, hi => by
    simp only [List.getD_cons_succ] at hi
    simp only [List.map_cons, List.getD_cons_succ]
    exact runSlice_getD_token zero tok ts i hi

/-- C5: `RunSlice` always returns exactly one result entry per input
task, and every task whose record was not ready before the shared token
fired (race oracle `false`) has the entry `(zero, ctx.Err())`, i.e. the
token's cancellation or deadline error. -/
theorem runSlice_fully_populated {T : Type} (zero : T) (tok : Reason)
    (tasks : List (Outcome T × Bool)) :
    (RunSlice zero tok tasks).1.length = tasks.length ∧
    ∀ i, (tasks.getD i (Outcome.ret zero none, true)).2 = false →
      (RunSlice zero tok tasks).1.getD i (zero, none) =
        (zero, some (ctxErr tok)) := by
  constructor
  · exact List.length_map tasks _
  · intro i hi
    exact runSlice_getD_token zero tok tasks i hi

/-- Witness for C5 at a concrete input: two tasks, the second of which was
not ready before the token (with deadline reason) fired. -/
theorem runSlice_fully_populated_witness :
    (RunSlice (0 : Nat) Reason.timedOut
        [(Outcome.ret 3 none, true), (Outcome.ret 5 none, false)]).1.getD 1
        (0, none) =
      (0, some (ctxErr Reason.timedOut)) :=
  (runSlice_fully_populated 0 Reason.timedOut
      [(Outcome.ret 3 none, true), (Outcome.ret 5 none, false)]).2 1 rfl

/-- C6: `ReceiveWatch` returns the zero value of `T` together with the
error tagged by the token's reason (`Canceled` for cancellation,
`DeadlineExceeded` for timeout) when the token's done event fires before
the slot is filled, and behaves exactly like `Receive` when the slot
event fires first. -/
theorem receiveWatch_race_semantics {T : Type} (zero : T) :
    (∀ (c : RdvChan T) (r : Reason),
        ReceiveWatch zero c (RaceEvent.tokenWins r) =
          some (Except.ok ((zero, some (ctxErr r)), c))) ∧
    (∀ c : RdvChan T, ReceiveWatch zero c RaceEvent.slotWins = Receive zero c) ∧
    ctxErr Reason.cancelled = Err.cancelled ∧
    ctxErr Reason.timedOut = Err.deadlineExceeded :=
  ⟨fun _ _ => rfl, fun _ => rfl, rfl, rfl⟩

/-- C7: once one successful receive has retrieved the delivered record
from a handle whose goroutine has finished (channel closed), a second
`Receive` — or a `ReceiveWatch` completing via the channel — returns the
closed-channel panic deterministically: it does not block (`none`) and
does not return a record. -/
theorem receive_second_call_panics {T : Type} (zero : T) (c c' : RdvChan T)
    (rec : T × Option Err)
    (h1 : Receive zero c = some (Except.ok (rec, c')))
    (h2 : c.closed = true) :
    Receive zero c' = some (Except.error closedChanMsg) ∧
    ReceiveWatch zero c' RaceEvent.slotWins =
      some (Except.error closedChanMsg) := by
  have hc' : c' = { buffer := none, closed := true } := by
    cases hb : c.buffer with
    | none =>
      simp [Receive, chanRecv, hb, h2] at h1
    | some d =>
      cases hopen : d.chanOpen with
      | false => simp [Receive, chanRecv, hb, hopen] at h1
      | true =>
        simp [Receive, chanRecv, hb, hopen] at h1
        rw [← h1.2, h2]
  rw [hc']
  exact ⟨rfl, rfl⟩

/-- Witness for C7 at a concrete input: the handle delivered value 5; the
first receive succeeded, and the second call panics. -/
theorem receive_second_call_panics_witness :
    Receive (0 : Nat) { buffer := none, closed := true } =
      some (Except.error closedChanMsg) ∧
    ReceiveWatch (0 : Nat) { buffer := none, closed := true }
        RaceEvent.slotWins =
      some (Except.error closedChanMsg) :=
  receive_second_call_panics 0 (mkDelivered 5 none)
    { buffer := none, closed := true } (5, none) rfl rfl

/-- C8: evaluation at the failing input.  The claim (and the method's own
doc comment) says awaiting is idempotent, but `ErrWait`'s value receiver
stores the selected error on a copy: with a fresh waiter whose context is
already done, the first `Await` returns the context error `Canceled`
while the second returns nil — and likewise at the `ErrWait` level. -/
theorem await_not_idempotent_eval :
    (Await (⟨(0, none), ⟨none, false⟩⟩ : promiseImpl Nat)
        (SelectPick.ctxDone Reason.cancelled)).1 = (0, some Err.cancelled) ∧
    (Await (Await (⟨(0, none), ⟨none, false⟩⟩ : promiseImpl Nat)
          (SelectPick.ctxDone Reason.cancelled)).2
        (SelectPick.ctxDone Reason.cancelled)).1 = (0, none) ∧
    (ErrWait ⟨none, false⟩ (SelectPick.ctxDone Reason.cancelled)).1 =
      some Err.cancelled ∧
    (ErrWait (ErrWait ⟨none, false⟩ (SelectPick.ctxDone Reason.cancelled)).2
        (SelectPick.ctxDone Reason.cancelled)).1 = none ∧
    ((0 : Nat), some Err.cancelled) ≠ ((0 : Nat), (none : Option Err)) := by
  decide

/-- C9: the goroutine bodies of `Go` and `GoEg` always complete: the send
of the single record on the fresh capacity-1 channel succeeds for every
behaviour of `f` (the result is never `none`, which would model a blocked
write), leaving exactly one buffered record and a closed channel — even
when no waiter ever collects the record. -/
theorem go_goroutine_always_delivers {T : Type} (zero : T) (out : Outcome T) :
    goBody zero out =
      some { buffer := some { value := (SafeFunc0E zero out).1,
                              err := (SafeFunc0E zero out).2,
                              chanOpen := true },
             closed := true } ∧
    goEgBody zero out =
      some ({ buffer := some { value := (SafeFunc0E zero out).1,
                               err := (SafeFunc0E zero out).2,
                               chanOpen := true },
              closed := true }, (SafeFunc0E zero out).2) :=
  ⟨rfl, rfl⟩

/-- C10: with zero input functions, `RunSlice` returns an empty results
slice and a nil summary error, and `RunSliceEg` returns an empty values
slice (not nil) and a nil error; both are total computations here, so
neither blocks. -/
theorem empty_input_combinators {T : Type} (zero : T) (tok : Reason) :
    RunSlice zero tok [] = ([], none) ∧
    RunSliceEg zero [] ([] : List (RdvChan T)) =
      some (Except.ok (some [], none)) :=
  ⟨rfl, rfl⟩

end Rendezvous
